import Mathlib

/-!
# Verification of the Product-Info-Scraper core (src/main.py)

Shallow embedding of the search clients, the result formatter and the bulk
loop of `main.py`.  HTTP providers are modelled as oracles mapping the request
parameters actually transmitted to the parsed view of the HTTP response
(status code, raw body text, and the JSON field the code extracts).  Python
dictionaries built in insertion order are modelled as ordered association
lists `List (String × String)`; Python `None` becomes `Option.none`.
-/

/-- Model of Python `str.strip` (`.strip()` with no argument removes leading
and trailing whitespace). -/
def pyStrip (s : String) : String :=
  ⟨((s.data.dropWhile Char.isWhitespace).reverse.dropWhile Char.isWhitespace).reverse⟩

/-- Model of Python `str.lower`: lower-case every character. -/
def pyLower (s : String) : String :=
  ⟨s.data.map Char.toLower⟩

/-- One shopping item as read from the provider JSON (`main.py` reads the nine
keys `title`, `source`, `link`, `price`, `imageUrl`, `rating`, `ratingCount`,
`productId`, `position` with `r.get(key, "")`, so each may be absent). -/
structure SearchResult where
  title : Option String
  source : Option String
  link : Option String
  price : Option String
  imageUrl : Option String
  rating : Option String
  ratingCount : Option String
  productId : Option String
  position : Option String
deriving DecidableEq

/-- Parsed view of one HTTP response from the Serper shopping endpoint:
`status` is `response.status_code`, `text` is `response.text`, and `shopping`
is `response.json().get("shopping", [])`. -/
structure SerperResponse where
  status : Nat
  text : String
  shopping : List SearchResult

/-- One web item of the Google Custom Search response (`data.get("items", [])`);
the UI reads `title`, `link`, `snippet` with `.get(key, '')`. -/
structure WebItem where
  title : Option String
  link : Option String
  snippet : Option String
deriving DecidableEq

/-- Parsed view of one HTTP response from the Google Custom Search endpoint:
`status` is `response.status_code`, `text` is `response.text`, and `items` is
`response.json().get("items", [])`. -/
structure GoogleResponse where
  status : Nat
  text : String
  items : List WebItem

/-- Return value of `google_custom_search` in `main.py`: either the items list
(returned directly), or the `{"error": ...}` dictionary. -/
inductive GoogleValue where
  | items (xs : List WebItem)
  | error (msg : String)
deriving DecidableEq

/-- `google_custom_search` (main.py lines 17-28): GET with params
`{key, cx, q}`; on `status_code != 200` return the error dictionary whose
message embeds the status code and `response.text`; otherwise return
`data.get("items", [])` unchanged.  The provider oracle maps the transmitted
parameters `(key, cx, q)` to the response. -/
def google_custom_search (provider : String → String → String → GoogleResponse)
    (query api_key cx : String) : GoogleValue :=
  let response := provider api_key cx query
  if response.status ≠ 200 then
    .error ("Google Custom Search API error: " ++ toString response.status ++ " - "
      ++ response.text)
  else
    .items response.items

/-- Outcome dictionary of `search_serper_shopping`:
`{"error": ..., "results": ...}`. -/
structure SearchOutcome where
  error : Option String
  results : List SearchResult

/-- The JSON payload of the shopping request (main.py lines 33-36):
`{"q": query, "gl": country.lower()}`, as the pair `(q, gl)`. -/
def serperPayload (query country : String) : String × String :=
  (query, pyLower country)

/-- `search_serper_shopping` (main.py lines 31-46): POST the payload; on
`status_code != 200` return `{"error": f"Serper API error: {status} - {text}",
"results": []}`; otherwise return the first 41 entries of
`response.json().get("shopping", [])` with `"error": None`.  The provider
oracle maps the transmitted payload `(q, gl)` to the response. -/
def search_serper_shopping (provider : String → String → SerperResponse)
    (query : String) (country : String := "us") : SearchOutcome :=
  let payload := serperPayload query country
  let response := provider payload.1 payload.2
  if response.status ≠ 200 then
    { error := some ("Serper API error: " ++ toString response.status ++ " - "
        ++ response.text),
      results := [] }
  else
    { error := none, results := response.shopping.take 41 }

/-- The nine indexed fields written for result number `i` in
`format_results_for_csv` (main.py lines 54-63), each read with
`r.get(key, "")`, i.e. defaulting to the empty string when absent. -/
def resultFields (i : Nat) (r : SearchResult) : List (String × String) :=
  [("Title " ++ toString i, r.title.getD ""),
   ("Source " ++ toString i, r.source.getD ""),
   ("Link " ++ toString i, r.link.getD ""),
   ("Price " ++ toString i, r.price.getD ""),
   ("ImageURL " ++ toString i, r.imageUrl.getD ""),
   ("Rating " ++ toString i, r.rating.getD ""),
   ("RatingCount " ++ toString i, r.ratingCount.getD ""),
   ("ProductId " ++ toString i, r.productId.getD ""),
   ("Position " ++ toString i, r.position.getD "")]

/-- The `for i, r in enumerate(results, start=1)` loop of
`format_results_for_csv`: the indexed field sets for the results, numbered
from `i` upward, in order. -/
def indexedFields : Nat → List SearchResult → List (String × String)
  | _, [] => []
  | i, r :: rs => resultFields i r ++ indexedFields (i + 1) rs

/-- `format_results_for_csv` (main.py lines 48-64).  Python evaluates
`"Error" if error else "Success"` and `if error:` by truthiness: the error
branch is taken exactly when `error` is neither `None` nor the empty string.
The returned dictionary is modelled as its insertion-ordered key/value list. -/
def format_results_for_csv (product_title : String) (results : List SearchResult)
    (error : Option String := none) : List (String × String) :=
  match error with
  | none =>
    ("Product Title", product_title) :: ("Search Status", "Success")
      :: indexedFields 1 results
  | some e =>
    if e = "" then
      ("Product Title", product_title) :: ("Search Status", "Success")
        :: indexedFields 1 results
    else
      [("Product Title", product_title), ("Search Status", "Error"),
       ("Error Message", e)]

/-- Dictionary lookup on a row: the value at the first occurrence of the key,
as Python `row.get(key)` / pandas column access would see it. -/
def getField : List (String × String) → String → Option String
  | [], _ => none
  | (k, v) :: rest, key => if k = key then some v else getField rest key

/-- One row of the uploaded bulk table after `pd.read_csv` and the `Country`
fixup (main.py lines 140-143): the `Product Title` cell as a string, and the
`Country` cell, where `none` models a missing `Country` column or a blank
cell (pandas parses a blank cell as NaN; both are replaced by `"us"`). -/
structure InputRow where
  productTitle : String
  country : Option String

/-- `product_title = str(row["Product Title"]).strip()` (main.py line 148). -/
def rowQuery (r : InputRow) : String :=
  pyStrip r.productTitle

/-- `country = str(row["Country"]).strip().lower()` after the fillna-with-"us"
fixup (main.py lines 140-143 and 149). -/
def rowCountry (r : InputRow) : String :=
  pyLower (pyStrip (r.country.getD "us"))

/-- The payload actually transmitted to the provider for a bulk row:
`search_serper_shopping` is called with the row's query and country, and
itself lower-cases the country into the `gl` parameter. -/
def rowPayload (r : InputRow) : String × String :=
  serperPayload (rowQuery r) (rowCountry r)

/-- One iteration of the bulk loop (main.py lines 147-160): skip the row when
the stripped title is empty; otherwise call the provider and format the
outcome (`if response["error"]:` again tests Python truthiness).  Returns the
transmitted payload together with the formatted row, or `none` for a skipped
row. -/
def bulkStep (provider : String → String → SerperResponse) (r : InputRow) :
    Option ((String × String) × List (String × String)) :=
  if rowQuery r = "" then
    none
  else
    let response := search_serper_shopping provider (rowQuery r) (rowCountry r)
    let formatted :=
      match response.error with
      | none => format_results_for_csv (rowQuery r) response.results none
      | some e =>
        if e = "" then
          format_results_for_csv (rowQuery r) response.results none
        else
          format_results_for_csv (rowQuery r) [] (some e)
    some (rowPayload r, formatted)

/-- The bulk loop over all input rows, in order, keeping both the provider
calls made and the accumulated rows. -/
def runBulkFull (provider : String → String → SerperResponse)
    (rows : List InputRow) : List ((String × String) × List (String × String)) :=
  rows.filterMap (bulkStep provider)

/-- `all_rows` at the end of the bulk loop: the formatted report rows, one per
non-blank input row, in input order. -/
def runBulk (provider : String → String → SerperResponse)
    (rows : List InputRow) : List (List (String × String)) :=
  (runBulkFull provider rows).map Prod.snd

/-- The sequence of payloads `(q, gl)` transmitted to the provider during the
bulk run, in order. -/
def bulkCalls (provider : String → String → SerperResponse)
    (rows : List InputRow) : List (String × String) :=
  (runBulkFull provider rows).map Prod.fst

example : pyStrip "  a b " = "a b" := by decide
example : pyLower "GB" = "gb" := by decide

/-! ## Helper lemmas -/

theorem char_toLower_toLower (c : Char) : c.toLower.toLower = c.toLower := by
  unfold Char.toLower
  by_cases h : c.toNat ≥ 65 ∧ c.toNat ≤ 90
  · rw [if_pos h]
    have hv : (c.toNat + 32).isValidChar := Or.inl (by omega)
    have hval : (Char.ofNat (c.toNat + 32)).toNat = c.toNat + 32 := by
      unfold Char.ofNat
      rw [dif_pos hv]
      rfl
    rw [hval, if_neg (by omega)]
  · rw [if_neg h, if_neg h]

theorem pyLower_pyLower (s : String) : pyLower (pyLower s) = pyLower s := by
  unfold pyLower
  rw [List.map_map]
  exact congrArg String.mk (List.map_congr_left fun c _ => char_toLower_toLower c)

theorem serper_msg_ne_empty (s : String) : ("Serper API error: " ++ s) ≠ "" := by
  intro h
  have h2 := congrArg String.length h
  rw [String.length_append] at h2
  simp at h2
  exact absurd h2.1 (by decide)

theorem indexedFields_eq_enumFrom (n : Nat) (rs : List SearchResult) :
    indexedFields n rs
      = ((List.enumFrom n rs).map fun p => resultFields p.1 p.2).flatten := by
  induction rs generalizing n with
  | nil => rfl
  | cons r rs ih => simp [indexedFields, List.enumFrom, ih]

theorem indexedFields_length (n : Nat) (rs : List SearchResult) :
    (indexedFields n rs).length = 9 * rs.length := by
  induction rs generalizing n with
  | nil => rfl
  | cons r rs ih =>
    simp [indexedFields, resultFields, ih]
    ring

/-! ## Claim theorems -/

/-- C1: for every provider response to the shopping search whose `shopping`
array has more than 41 items (and a success status), `search_serper_shopping`
returns exactly the first 41 items, in the original order, with a null
error. -/
theorem serper_truncates_to_first_41 (provider : String → String → SerperResponse)
    (q c : String)
    (hs : (provider q (pyLower c)).status = 200)
    (hn : 41 < (provider q (pyLower c)).shopping.length) :
    (search_serper_shopping provider q c).error = none ∧
    (search_serper_shopping provider q c).results
      = (provider q (pyLower c)).shopping.take 41 ∧
    (search_serper_shopping provider q c).results.length = 41 := by
  refine ⟨?_, ?_, ?_⟩ <;>
    simp [search_serper_shopping, serperPayload, hs, List.length_take]
  omega

theorem serper_truncates_to_first_41_witness :
    (search_serper_shopping
        (fun _ _ => SerperResponse.mk 200 ""
          (List.replicate 42 (SearchResult.mk none none none none none none none none none)))
        "q" "us").error = none ∧
    (search_serper_shopping
        (fun _ _ => SerperResponse.mk 200 ""
          (List.replicate 42 (SearchResult.mk none none none none none none none none none)))
        "q" "us").results
      = (List.replicate 42 (SearchResult.mk none none none none none none none none none)).take 41 ∧
    (search_serper_shopping
        (fun _ _ => SerperResponse.mk 200 ""
          (List.replicate 42 (SearchResult.mk none none none none none none none none none)))
        "q" "us").results.length = 41 :=
  serper_truncates_to_first_41
    (fun _ _ => SerperResponse.mk 200 ""
      (List.replicate 42 (SearchResult.mk none none none none none none none none none)))
    "q" "us" rfl (by simp)

/-- C7: a `SearchOutcome` produced by the shopping search client never has
both a non-null error and non-empty results: either the error is null and the
results are the (truncated) provider items, or the error is some message and
the results are empty. -/
theorem outcome_error_results_exclusive (provider : String → String → SerperResponse)
    (q c : String) :
    ((search_serper_shopping provider q c).error = none ∧
      (search_serper_shopping provider q c).results
        = (provider q (pyLower c)).shopping.take 41) ∨
    (∃ msg, (search_serper_shopping provider q c).error = some msg ∧
      (search_serper_shopping provider q c).results = []) := by
  by_cases h : (provider q (pyLower c)).status = 200
  · left
    constructor <;> simp [search_serper_shopping, serperPayload, h]
  · right
    refine ⟨"Serper API error: " ++ toString (provider q (pyLower c)).status ++ " - "
      ++ (provider q (pyLower c)).text, ?_, ?_⟩ <;>
      simp [search_serper_shopping, serperPayload, h]

/-- C8: on a non-success HTTP status, `search_serper_shopping` returns an
outcome whose error string includes both the numeric status code and the raw
response body, together with an empty result list. -/
theorem serper_error_includes_status_and_body (provider : String → String → SerperResponse)
    (q c : String)
    (hs : (provider q (pyLower c)).status ≠ 200) :
    (∃ before middle,
      (search_serper_shopping provider q c).error
        = some (before ++ toString (provider q (pyLower c)).status ++ middle
            ++ (provider q (pyLower c)).text)) ∧
    (search_serper_shopping provider q c).results = [] := by
  refine ⟨⟨"Serper API error: ", " - ", ?_⟩, ?_⟩ <;>
    simp [search_serper_shopping, serperPayload, hs]

theorem serper_error_includes_status_and_body_witness :
    (∃ before middle,
      (search_serper_shopping (fun _ _ => SerperResponse.mk 404 "nope" []) "q" "us").error
        = some (before ++ toString (404 : Nat) ++ middle ++ "nope")) ∧
    (search_serper_shopping (fun _ _ => SerperResponse.mk 404 "nope" []) "q" "us").results = [] :=
  serper_error_includes_status_and_body
    (fun _ _ => SerperResponse.mk 404 "nope" []) "q" "us" (by decide)

/-- C9: `google_custom_search` applies no 41-item cap: on a success status it
returns the provider's items list directly and in full, and on a non-success
status it returns the error object embedding the status code and response
body. -/
theorem google_search_no_cap (provider : String → String → String → GoogleResponse)
    (query api_key cx : String) :
    ((provider api_key cx query).status = 200 →
      google_custom_search provider query api_key cx
        = .items (provider api_key cx query).items) ∧
    ((provider api_key cx query).status ≠ 200 →
      ∃ before middle,
        google_custom_search provider query api_key cx
          = .error (before ++ toString (provider api_key cx query).status ++ middle
              ++ (provider api_key cx query).text)) := by
  constructor
  · intro h
    simp [google_custom_search, h]
  · intro h
    exact ⟨"Google Custom Search API error: ", " - ", by simp [google_custom_search, h]⟩

theorem google_search_no_cap_witness :
    google_custom_search
        (fun _ _ _ => GoogleResponse.mk 200 ""
          (List.replicate 45 (WebItem.mk none none none))) "q" "k" "c"
      = .items (List.replicate 45 (WebItem.mk none none none)) ∧
    (∃ before middle,
      google_custom_search (fun _ _ _ => GoogleResponse.mk 500 "boom" []) "q" "k" "c"
        = .error (before ++ toString (500 : Nat) ++ middle ++ "boom")) :=
  ⟨(google_search_no_cap
      (fun _ _ _ => GoogleResponse.mk 200 ""
        (List.replicate 45 (WebItem.mk none none none))) "q" "k" "c").1 rfl,
   (google_search_no_cap
      (fun _ _ _ => GoogleResponse.mk 500 "boom" []) "q" "k" "c").2 (by decide)⟩

/-- C3: for an error-free outcome with k results, the formatted row is the
query text, status "Success", and exactly k indexed sets of the nine fields
at positions 1..k (each field defaulting to the empty string inside
`resultFields`); the row has exactly 2 + 9k entries. -/
theorem format_success_row_shape (pt : String) (results : List SearchResult)
    (_hk : results.length ≤ 41) :
    format_results_for_csv pt results none
      = ("Product Title", pt) :: ("Search Status", "Success")
        :: ((List.enumFrom 1 results).map fun p => resultFields p.1 p.2).flatten ∧
    (format_results_for_csv pt results none).length = 2 + 9 * results.length := by
  constructor
  · simp [format_results_for_csv, indexedFields_eq_enumFrom]
  · simp [format_results_for_csv, indexedFields_length]
    omega

theorem format_success_row_shape_witness :
    (List.length [SearchResult.mk (some "T") none none none none none none none none] ≤ 41) ∧
    (format_results_for_csv "w"
        [SearchResult.mk (some "T") none none none none none none none none] none
      = ("Product Title", "w") :: ("Search Status", "Success")
        :: ((List.enumFrom 1
              [SearchResult.mk (some "T") none none none none none none none none]).map
                fun p => resultFields p.1 p.2).flatten ∧
    (format_results_for_csv "w"
        [SearchResult.mk (some "T") none none none none none none none none] none).length
      = 2 + 9 * (List.length
          [SearchResult.mk (some "T") none none none none none none none none])) :=
  ⟨by decide,
   format_success_row_shape "w"
     [SearchResult.mk (some "T") none none none none none none none none] (by decide)⟩

/-- C4, counterexample: Python tests `if error:` by truthiness, so the
non-null error `""` (the empty string) takes the success branch — the row
reports "Success" and carries no "Error Message" field, contradicting the
claim at this input. -/
theorem format_error_nonnull_cex :
    getField (format_results_for_csv "widget" [] (some "")) "Search Status" = some "Success" ∧
    getField (format_results_for_csv "widget" [] (some "")) "Error Message" = none := by
  decide

/-- C4, amended: for every outcome carrying a non-null, non-empty error
message, `format_results_for_csv` returns exactly the three fields query
text, status "Error", and the error message — in particular no indexed
result fields. -/
theorem format_error_row (pt : String) (results : List SearchResult) (e : String)
    (he : e ≠ "") :
    format_results_for_csv pt results (some e)
      = [("Product Title", pt), ("Search Status", "Error"), ("Error Message", e)] := by
  simp [format_results_for_csv, he]

theorem format_error_row_witness :
    format_results_for_csv "w" [] (some "boom")
      = [("Product Title", "w"), ("Search Status", "Error"), ("Error Message", "boom")] :=
  format_error_row "w" [] "boom" (by decide)

/-- C10, counterexample: with the non-null error `""` the returned row is not
independent of the results argument — Python truthiness routes `error=""` to
the success branch, which emits the indexed fields of the results. -/
theorem format_error_dependent_cex :
    format_results_for_csv "w"
        [SearchResult.mk (some "t") none none none none none none none none] (some "")
      ≠ format_results_for_csv "w" [] (some "") := by
  decide

/-- C10, amended: when the error argument is non-null and non-empty, the row
returned by `format_results_for_csv` is completely independent of the results
argument and consists of exactly the three fields Product Title, Search
Status = "Error", and Error Message. -/
theorem format_error_row_independent (pt e : String) (res1 res2 : List SearchResult)
    (he : e ≠ "") :
    format_results_for_csv pt res1 (some e) = format_results_for_csv pt res2 (some e) ∧
    format_results_for_csv pt res1 (some e)
      = [("Product Title", pt), ("Search Status", "Error"), ("Error Message", e)] := by
  constructor <;> simp [format_results_for_csv, he]

theorem format_error_row_independent_witness :
    (format_results_for_csv "w"
        [SearchResult.mk (some "t") none none none none none none none none] (some "oops")
      = format_results_for_csv "w" [] (some "oops")) ∧
    format_results_for_csv "w"
        [SearchResult.mk (some "t") none none none none none none none none] (some "oops")
      = [("Product Title", "w"), ("Search Status", "Error"), ("Error Message", "oops")] :=
  format_error_row_independent "w" "oops"
    [SearchResult.mk (some "t") none none none none none none none none] [] (by decide)

theorem serper_full_msg_ne_empty (a b : String) :
    ("Serper API error: " ++ a ++ " - " ++ b) ≠ "" := by
  intro h
  have h2 := congrArg String.length h
  rw [String.length_append, String.length_append, String.length_append] at h2
  have h18 : ("Serper API error: " : String).length = 18 := rfl
  have h3 : (" - " : String).length = 3 := rfl
  have h0 : ("" : String).length = 0 := rfl
  rw [h18, h3, h0] at h2
  omega

theorem bulkStep_success (provider : String → String → SerperResponse)
    (r : InputRow) (hq : rowQuery r ≠ "")
    (hs : (provider (rowPayload r).1 (rowPayload r).2).status = 200) :
    bulkStep provider r = some (rowPayload r,
      format_results_for_csv (rowQuery r)
        ((provider (rowPayload r).1 (rowPayload r).2).shopping.take 41) none) := by
  simp only [rowPayload, serperPayload] at hs
  simp [bulkStep, hq, search_serper_shopping, rowPayload, serperPayload, hs]

theorem bulkStep_error (provider : String → String → SerperResponse)
    (r : InputRow) (hq : rowQuery r ≠ "")
    (hs : (provider (rowPayload r).1 (rowPayload r).2).status ≠ 200) :
    bulkStep provider r = some (rowPayload r,
      [("Product Title", rowQuery r), ("Search Status", "Error"),
       ("Error Message", "Serper API error: "
         ++ toString (provider (rowPayload r).1 (rowPayload r).2).status ++ " - "
         ++ (provider (rowPayload r).1 (rowPayload r).2).text)]) := by
  simp only [rowPayload, serperPayload] at hs
  simp [bulkStep, hq, search_serper_shopping, rowPayload, serperPayload, hs,
    format_results_for_csv, serper_full_msg_ne_empty]

/-- C2: for a bulk input of 3 non-blank rows where the provider call for row
2 returns a non-success status and rows 1 and 3 succeed, the run produces
exactly 3 report rows in input order; row 2 has status "Error" with a message
containing the status code, rows 1 and 3 have status "Success".  The per-row
error does not abort the run. -/
theorem bulk_continue_on_error (provider : String → String → SerperResponse)
    (r1 r2 r3 : InputRow)
    (h1 : rowQuery r1 ≠ "") (h2 : rowQuery r2 ≠ "") (h3 : rowQuery r3 ≠ "")
    (s1 : (provider (rowPayload r1).1 (rowPayload r1).2).status = 200)
    (e2 : (provider (rowPayload r2).1 (rowPayload r2).2).status ≠ 200)
    (s3 : (provider (rowPayload r3).1 (rowPayload r3).2).status = 200) :
    ∃ row1 row2 row3,
      runBulk provider [r1, r2, r3] = [row1, row2, row3] ∧
      getField row1 "Search Status" = some "Success" ∧
      getField row2 "Search Status" = some "Error" ∧
      getField row3 "Search Status" = some "Success" ∧
      ∃ before middle, getField row2 "Error Message"
        = some (before
            ++ toString (provider (rowPayload r2).1 (rowPayload r2).2).status
            ++ middle) := by
  have b1 := bulkStep_success provider r1 h1 s1
  have b2 := bulkStep_error provider r2 h2 e2
  have b3 := bulkStep_success provider r3 h3 s3
  refine ⟨format_results_for_csv (rowQuery r1)
      ((provider (rowPayload r1).1 (rowPayload r1).2).shopping.take 41) none,
    [("Product Title", rowQuery r2), ("Search Status", "Error"),
     ("Error Message", "Serper API error: "
       ++ toString (provider (rowPayload r2).1 (rowPayload r2).2).status ++ " - "
       ++ (provider (rowPayload r2).1 (rowPayload r2).2).text)],
    format_results_for_csv (rowQuery r3)
      ((provider (rowPayload r3).1 (rowPayload r3).2).shopping.take 41) none,
    ?_, ?_, ?_, ?_, ?_⟩
  · simp [runBulk, runBulkFull, List.filterMap_cons, b1, b2, b3]
  · simp [format_results_for_csv, getField]
  · simp [getField]
  · simp [format_results_for_csv, getField]
  · refine ⟨"Serper API error: ",
      " - " ++ (provider (rowPayload r2).1 (rowPayload r2).2).text, ?_⟩
    simp [getField, String.append_assoc]

/-- C5: a bulk input row whose trimmed query text is empty contributes no
report row and triggers no provider call; removing it changes nothing, and
the report always has exactly one row per non-blank input row. -/
theorem bulk_skips_blank_rows (provider : String → String → SerperResponse)
    (pre post : List InputRow) (b : InputRow)
    (hb : rowQuery b = "") :
    runBulk provider (pre ++ b :: post) = runBulk provider (pre ++ post) ∧
    bulkCalls provider (pre ++ b :: post) = bulkCalls provider (pre ++ post) ∧
    ∀ rows : List InputRow,
      (runBulk provider rows).length
        = (rows.filter fun r => rowQuery r != "").length := by
  have hstep : bulkStep provider b = none := by simp [bulkStep, hb]
  refine ⟨?_, ?_, ?_⟩
  · simp [runBulk, runBulkFull, List.filterMap_append, List.filterMap_cons, hstep]
  · simp [bulkCalls, runBulkFull, List.filterMap_append, List.filterMap_cons, hstep]
  · intro rows
    induction rows with
    | nil => rfl
    | cons r rs ih =>
      by_cases h : rowQuery r = ""
      · simpa [runBulk, runBulkFull, List.filterMap_cons, List.filter_cons,
          bulkStep, h] using ih
      · simpa [runBulk, runBulkFull, List.filterMap_cons, List.filter_cons,
          bulkStep, h] using ih

theorem bulk_skips_blank_rows_witness :
    runBulk (fun _ _ => SerperResponse.mk 200 "" [])
        [InputRow.mk "a" none, InputRow.mk " " none, InputRow.mk "b" none]
      = runBulk (fun _ _ => SerperResponse.mk 200 "" [])
        [InputRow.mk "a" none, InputRow.mk "b" none] ∧
    bulkCalls (fun _ _ => SerperResponse.mk 200 "" [])
        [InputRow.mk "a" none, InputRow.mk " " none, InputRow.mk "b" none]
      = bulkCalls (fun _ _ => SerperResponse.mk 200 "" [])
        [InputRow.mk "a" none, InputRow.mk "b" none] ∧
    ∀ rows : List InputRow,
      (runBulk (fun _ _ => SerperResponse.mk 200 "" []) rows).length
        = (rows.filter fun r => rowQuery r != "").length :=
  bulk_skips_blank_rows (fun _ _ => SerperResponse.mk 200 "" [])
    [InputRow.mk "a" none] [InputRow.mk "b" none] (InputRow.mk " " none) (by decide)

/-- C6: a bulk row whose Country cell is blank or missing is queried with
locale "us", and in all cases the locale transmitted to the provider is the
lower-casing of the row's (defaulted, stripped) Country value. -/
theorem bulk_locale_default_and_lowercased (provider : String → String → SerperResponse)
    (r : InputRow) (hq : rowQuery r ≠ "") :
    (r.country = none → bulkCalls provider [r] = [(rowQuery r, "us")]) ∧
    bulkCalls provider [r] = [(rowQuery r, pyLower (pyStrip (r.country.getD "us")))] := by
  have hcall : bulkCalls provider [r] = [rowPayload r] := by
    simp [bulkCalls, runBulkFull, List.filterMap_cons, bulkStep, hq]
  constructor
  · intro hc
    rw [hcall]
    simp only [rowPayload, serperPayload, rowCountry, hc, Option.getD]
    rfl
  · rw [hcall]
    simp [rowPayload, serperPayload, rowCountry, pyLower_pyLower]

theorem bulk_locale_default_and_lowercased_witness :
    ((InputRow.mk "a" none).country = none →
      bulkCalls (fun _ _ => SerperResponse.mk 200 "" []) [InputRow.mk "a" none]
        = [(rowQuery (InputRow.mk "a" none), "us")]) ∧
    bulkCalls (fun _ _ => SerperResponse.mk 200 "" []) [InputRow.mk "a" none]
      = [(rowQuery (InputRow.mk "a" none),
          pyLower (pyStrip ((InputRow.mk "a" none).country.getD "us")))] :=
  bulk_locale_default_and_lowercased (fun _ _ => SerperResponse.mk 200 "" [])
    (InputRow.mk "a" none) (by decide)

theorem bulk_continue_on_error_witness :
    ∃ row1 row2 row3,
      runBulk (fun q _ => if q = "b" then SerperResponse.mk 500 "boom" []
          else SerperResponse.mk 200 "" [])
        [InputRow.mk "a" none, InputRow.mk "b" none, InputRow.mk "c" none]
        = [row1, row2, row3] ∧
      getField row1 "Search Status" = some "Success" ∧
      getField row2 "Search Status" = some "Error" ∧
      getField row3 "Search Status" = some "Success" ∧
      ∃ before middle, getField row2 "Error Message"
        = some (before ++ toString (500 : Nat) ++ middle) :=
  bulk_continue_on_error
    (fun q _ => if q = "b" then SerperResponse.mk 500 "boom" []
      else SerperResponse.mk 200 "" [])
    (InputRow.mk "a" none) (InputRow.mk "b" none) (InputRow.mk "c" none)
    (by decide) (by decide) (by decide) (by decide) (by decide) (by decide)
